import Mathlib

/-!
Shallow embedding of the CAN bridge (CANConnector and CANListener) from the
canbus_services repository. Syscall outcomes (socket, ioctl, bind, write,
select, read) are supplied by an explicit environment record; callbacks and
the write syscall are recorded as events in the order the code produces them.
-/

namespace CanBus

/-- Maximum CAN payload length (CAN_MAX_DLEN from linux/can.h). -/
def CAN_MAX_DLEN : Nat := 8

/-- State of a CANConnector: m_interfaceName, m_socket, m_connected, m_shouldStop. -/
structure ConnState where
  interfaceName : String
  socket : Int
  connected : Bool
  shouldStop : Bool
deriving DecidableEq

/-- State after the CANConnector constructor: socket -1, disconnected. -/
def initState (name : String) : ConnState :=
  { interfaceName := name, socket := -1, connected := false, shouldStop := false }

/-- Outcomes of the syscalls connect/sendMessage perform: socket() returns a
descriptor or fails, ioctl(SIOCGIFINDEX) and bind() succeed or fail, write()
transfers the full frame or fails, and strerror(errno) is an opaque string. -/
structure Env where
  socketFd : Option Nat
  ioctlOk : Bool
  bindOk : Bool
  writeOk : Bool
  strerror : String
deriving DecidableEq

/-- Observable effects of the connector: callback invocations and the write
syscall on the CAN socket. -/
inductive Event where
  | errorCb (msg : String)
  | statusCb (connected : Bool)
  | messageCb (canId : Nat) (data : List Nat)
  | writeSyscall (canId : Nat) (data : List Nat)
deriving DecidableEq

/-- CANConnector::isConnected. -/
def isConnected (s : ConnState) : Bool := s.connected

/-- Error message built in sendMessage for an oversized payload. -/
def oversizeMsg (n : Nat) : String :=
  "Data too large: " ++ toString n ++ " bytes (max: " ++ toString CAN_MAX_DLEN ++ ")"

/-- CANConnector::sendMessage: rejects when not connected or the socket is
invalid, then rejects payloads above CAN_MAX_DLEN, then performs the write
syscall; a short write fires the error callback. Returns the bool result and
the emitted events. -/
def sendMessage (env : Env) (s : ConnState) (canId : Nat) (data : List Nat) :
    Bool × List Event :=
  if s.connected = false ∨ s.socket < 0 then
    (false, [Event.errorCb "CAN socket not connected"])
  else if CAN_MAX_DLEN < data.length then
    (false, [Event.errorCb (oversizeMsg data.length)])
  else if env.writeOk = true then
    (true, [Event.writeSyscall canId data])
  else
    (false, [Event.writeSyscall canId data,
             Event.errorCb ("Failed to send CAN message: " ++ env.strerror)])

/-- CANConnector::setupSocket: socket create, interface-index lookup, bind;
each failing step closes the socket and resets it to -1. -/
def setupSocket (env : Env) (s : ConnState) : Bool × ConnState :=
  match env.socketFd with
  | none => (false, { s with socket := -1 })
  | some fd =>
    if env.ioctlOk = false then (false, { s with socket := -1 })
    else if env.bindOk = false then (false, { s with socket := -1 })
    else (true, { s with socket := (fd : Int) })

/-- CANConnector::connect: returns true at once when already connected;
otherwise runs setupSocket, and on failure fires the error callback built
from strerror(errno); on success marks connected, clears the stop flag,
spawns the reader and fires the status callback. -/
def connect (env : Env) (s : ConnState) : Bool × ConnState × List Event :=
  if s.connected = true then (true, s, [])
  else
    match setupSocket env s with
    | (false, s1) =>
        (false, s1, [Event.errorCb ("Failed to setup CAN socket: " ++ env.strerror)])
    | (true, s1) =>
        (true, { s1 with connected := true, shouldStop := false },
         [Event.statusCb true])

/-- CANConnector::disconnect: no-op when not connected; otherwise sets the
stop flag, joins the reader, closes the socket and fires the status callback. -/
def disconnect (s : ConnState) : ConnState × List Event :=
  if s.connected = false then (s, [])
  else
    ({ s with shouldStop := true, socket := -1, connected := false },
     [Event.statusCb false])

/-- CANConnector::setInterfaceName: only acts when the name differs; then a
connected connector is disconnected, renamed and reconnected, a disconnected
one is just renamed. -/
def setInterfaceName (env : Env) (s : ConnState) (name : String) :
    ConnState × List Event :=
  if s.interfaceName ≠ name then
    let wasConnected := s.connected
    let d := if wasConnected = true then disconnect s else (s, [])
    let s2 := { d.1 with interfaceName := name }
    if wasConnected = true then
      let c := connect env s2
      (c.2.1, d.2 ++ c.2.2)
    else (s2, d.2)
  else (s, [])

/-- Result of one select() call in the reader loop, and of the read() that
follows when the descriptor is ready. -/
inductive SelectOutcome where
  | frameRead (canId : Nat) (data : List Nat)
  | shortRead
  | readError
  | timeout
  | selectError
deriving DecidableEq

/-- CANConnector::readThreadFunction: one iteration per SelectOutcome, the
stop flag checked at the top of each iteration. A full frame fires the
message callback; a short non-negative read is ignored; a read error or a
select error fires the error callback and breaks out of the loop. Returns
the connector state (which the loop body never assigns), the events, and
whether the loop ended by break. -/
def readThreadFunction (s : ConnState) (strerror : String) :
    List SelectOutcome → ConnState × List Event × Bool
  | [] => (s, [], false)
  | o :: rest =>
    if s.shouldStop = true then (s, [], false)
    else
      match o with
      | SelectOutcome.frameRead canId data =>
          let r := readThreadFunction s strerror rest
          (r.1, Event.messageCb canId data :: r.2.1, r.2.2)
      | SelectOutcome.shortRead => readThreadFunction s strerror rest
      | SelectOutcome.readError =>
          (s, [Event.errorCb ("Error reading CAN socket: " ++ strerror)], true)
      | SelectOutcome.timeout => readThreadFunction s strerror rest
      | SelectOutcome.selectError =>
          (s, [Event.errorCb ("Select error: " ++ strerror)], true)

/-- True when the event list records a write syscall. -/
def invokesWrite : List Event → Bool
  | [] => false
  | Event.writeSyscall _ _ :: _ => true
  | _ :: rest => invokesWrite rest

/-- Routing categories that actually appear in CANListener::forwardCANMessageToECU. -/
inductive RouteCategory where
  | engine
  | transmission
deriving DecidableEq

/-- CANListener::forwardCANMessageToECU: 0x100..0x1FF forwards as engine,
0x200..0x2FF as transmission, anything else takes no forwarding action. -/
def forwardCANMessageToECU (canId : Nat) : Option RouteCategory :=
  if 0x100 ≤ canId ∧ canId ≤ 0x1FF then some RouteCategory.engine
  else if 0x200 ≤ canId ∧ canId ≤ 0x2FF then some RouteCategory.transmission
  else none

/-- Observable effects of the listener on the local bus. -/
inductive BusEvent where
  | canMessageReceivedSignal (canId : Nat) (data : List Nat) (timestamp : Nat)
  | forwardLog (cat : RouteCategory) (canId : Nat)
deriving DecidableEq

/-- CANListener::onCANMessageReceived: emits the CANMessageReceived signal
(when the D-Bus object exists) with the payload unchanged, then consults the
routing table via forwardCANMessageToECU. -/
def onCANMessageReceived (hasDbusObject : Bool) (timestamp canId : Nat)
    (data : List Nat) : List BusEvent :=
  (if hasDbusObject = true then
     [BusEvent.canMessageReceivedSignal canId data timestamp]
   else [])
  ++ (match forwardCANMessageToECU canId with
      | some c => [BusEvent.forwardLog c canId]
      | none => [])

/-- D-Bus method SendCANMessage as registered in setupDBusInterface: the
lambda returns m_canConnector->sendMessage(canId, data). -/
def dbusSendCANMessage (env : Env) (s : ConnState) (canId : Nat)
    (data : List Nat) : Bool × List Event :=
  sendMessage env s canId data

/-- D-Bus method GetStatus as registered in setupDBusInterface: the lambda
returns "Connected" or "Disconnected" from isConnected at call time. -/
def dbusGetStatus (s : ConnState) : String :=
  if isConnected s = true then "Connected" else "Disconnected"

/-- State of a CANListener: its connector and whether the D-Bus connection,
object and event-loop thread currently exist. -/
structure ListenerState where
  conn : ConnState
  dbusConnection : Bool
  dbusObject : Bool
  dbusThread : Bool
deriving DecidableEq

/-- Whether leaveEventLoop and releaseName throw during teardown. -/
structure StopEnv where
  leaveLoopFails : Bool
  releaseNameFails : Bool
deriving DecidableEq

/-- Teardown steps of CANListener::stop, in order, warnings included. -/
inductive StopEvent where
  | transportDisconnect
  | leaveEventLoopAttempt
  | leaveEventLoopWarning
  | joinDbusThread
  | releaseNameAttempt
  | releaseNameWarning
  | resetDbusObjects
deriving DecidableEq

/-- CANListener::stop: disconnects the transport, then, when a D-Bus
connection exists, leaves the event loop, joins the thread, releases the
name and resets the objects; a throwing step is caught, logged as a warning
and never aborts the later steps. -/
def stop (env : StopEnv) (s : ListenerState) : ListenerState × List StopEvent :=
  let conn2 := (disconnect s.conn).1
  if s.dbusConnection = true then
    ({ conn := conn2, dbusConnection := false, dbusObject := false,
       dbusThread := false },
     [StopEvent.transportDisconnect, StopEvent.leaveEventLoopAttempt]
       ++ (if env.leaveLoopFails = true then [StopEvent.leaveEventLoopWarning]
           else [])
       ++ (if s.dbusThread = true then [StopEvent.joinDbusThread] else [])
       ++ [StopEvent.releaseNameAttempt]
       ++ (if env.releaseNameFails = true then [StopEvent.releaseNameWarning]
           else [])
       ++ [StopEvent.resetDbusObjects])
  else ({ s with conn := conn2 }, [StopEvent.transportDisconnect])

/-- Shared global state of CANListener::instance: the static unique_ptr and a
count of how many CANListener objects have been constructed. -/
structure SingletonGlobal where
  inst : Option Nat
  allocs : Nat
deriving DecidableEq

/-- Per-thread progress through the body of instance(): pc 0 is before the
null check, pc 1 is between the check and the conditional reset, pc 2 is
done; sawNull records what the check observed. -/
structure SingletonThread where
  pc : Nat
  sawNull : Bool
deriving DecidableEq

/-- One atomic step of a thread executing instance(): first the null check
(a load), then, when null was observed, the reset (construct and store). -/
def singletonStep (g : SingletonGlobal) (t : SingletonThread) :
    SingletonGlobal × SingletonThread :=
  match t.pc with
  | 0 => (g, { pc := 1, sawNull := g.inst.isNone })
  | 1 =>
    if t.sawNull = true then
      ({ inst := some (g.allocs + 1), allocs := g.allocs + 1 },
       { t with pc := 2 })
    else (g, { t with pc := 2 })
  | _ => (g, t)

/-- Interleave two threads executing instance() under a schedule: true steps
the first thread, false the second. -/
def runInstance : List Bool → SingletonGlobal → SingletonThread →
    SingletonThread → SingletonGlobal × SingletonThread × SingletonThread
  | [], g, t1, t2 => (g, t1, t2)
  | b :: rest, g, t1, t2 =>
    if b = true then
      let r := singletonStep g t1
      runInstance rest r.1 r.2 t2
    else
      let r := singletonStep g t2
      runInstance rest r.1 t1 r.2

/-- Whether sub occurs as a contiguous run inside the character list. -/
def containsSeq (sub : List Char) : List Char → Bool
  | [] => sub.isEmpty
  | c :: rest => List.isPrefixOf sub (c :: rest) || containsSeq sub rest

/-- Whether sub occurs as a substring of s. -/
def isSubstring (sub s : String) : Bool := containsSeq sub.data s.data

/-- Concrete connected connector used by witnesses. -/
def conn0 : ConnState :=
  { interfaceName := "vcan0", socket := 3, connected := true, shouldStop := false }

/-- Concrete environment where every syscall succeeds. -/
def env0 : Env :=
  { socketFd := some 3, ioctlOk := true, bindOk := true, writeOk := true,
    strerror := "Success" }

/-- Concrete environment where socket() fails. -/
def envFail : Env :=
  { socketFd := none, ioctlOk := true, bindOk := true, writeOk := true,
    strerror := "No such device" }

/-- Initial global state for the instance() model. -/
def g0 : SingletonGlobal := { inst := none, allocs := 0 }

/-- Initial thread state for the instance() model. -/
def t0 : SingletonThread := { pc := 0, sawNull := false }

lemma oversizeMsg_head (n : Nat) : (oversizeMsg n).data.head? = some 'D' := rfl

lemma oversizeMsg_ne_notConnected (n : Nat) :
    oversizeMsg n ≠ "CAN socket not connected" := by
  intro h
  have h2 : (oversizeMsg n).data.head? = some 'C' := by rw [h]; decide
  rw [oversizeMsg_head n] at h2
  exact absurd h2 (by decide)

lemma isPrefixOf_self : ∀ l : List Char, List.isPrefixOf l l = true := by
  intro l
  induction l with
  | nil => rfl
  | cons c cs ih => simp [List.isPrefixOf, ih]

lemma containsSeq_append_self (sub : List Char) :
    ∀ pre : List Char, containsSeq sub (pre ++ sub) = true := by
  intro pre
  induction pre with
  | nil =>
    cases sub with
    | nil => rfl
    | cons c cs => simp [containsSeq, isPrefixOf_self]
  | cons c pre2 ih => simp [containsSeq, ih]

lemma disconnect_connected_false (c : ConnState) :
    (disconnect c).1.connected = false := by
  cases h : c.connected <;> simp [disconnect, h]

lemma disconnect_of_not_connected (c : ConnState) (h : c.connected = false) :
    disconnect c = (c, []) := by
  simp [disconnect, h]

lemma stop_conn_connected (env : StopEnv) (s : ListenerState) :
    (stop env s).1.conn.connected = false := by
  cases hd : s.dbusConnection <;>
    simp [stop, hd, disconnect_connected_false]

lemma stop_dbusConnection_false (env : StopEnv) (s : ListenerState) :
    (stop env s).1.dbusConnection = false := by
  cases hd : s.dbusConnection <;> simp [stop, hd]

/-- C1: a payload longer than 8 bytes makes sendMessage return false without
the write syscall ever being invoked, for every canId and every connector
state; a payload of exactly 8 bytes is accepted and sendMessage returns true
whenever the connector is connected with a valid socket and the write
syscall transfers the frame. -/
theorem sendMessage_size_boundary :
    (∀ env s canId data, CAN_MAX_DLEN < data.length →
      (sendMessage env s canId data).1 = false ∧
      invokesWrite (sendMessage env s canId data).2 = false) ∧
    (∀ env s canId data, s.connected = true → 0 ≤ s.socket →
      data.length = CAN_MAX_DLEN → env.writeOk = true →
      (sendMessage env s canId data).1 = true) := by
  constructor
  · intro env s canId data hbig
    by_cases hc : s.connected = false ∨ s.socket < 0
    · simp [sendMessage, hc, invokesWrite]
    · simp [sendMessage, hc, hbig, invokesWrite]
  · intro env s canId data hc hs hlen hw
    have hns : ¬ (s.connected = false ∨ s.socket < 0) := by
      rintro (h | h)
      · simp [hc] at h
      · omega
    have hlt : ¬ CAN_MAX_DLEN < data.length := by omega
    simp [sendMessage, hns, hlt, hw]

/-- C1 witness: a 9-byte payload is rejected with no write syscall, and an
8-byte payload succeeds, on a concrete connected connector. -/
theorem sendMessage_size_boundary_witness :
    (sendMessage env0 conn0 291 [1, 2, 3, 4, 5, 6, 7, 8, 9]).1 = false ∧
    invokesWrite (sendMessage env0 conn0 291 [1, 2, 3, 4, 5, 6, 7, 8, 9]).2 = false ∧
    (sendMessage env0 conn0 291 [1, 2, 3, 4, 5, 6, 7, 8]).1 = true := by
  refine ⟨?_, ?_, ?_⟩
  · exact (sendMessage_size_boundary.1 env0 conn0 291 _ (by decide)).1
  · exact (sendMessage_size_boundary.1 env0 conn0 291 _ (by decide)).2
  · exact sendMessage_size_boundary.2 env0 conn0 291 _ (by decide) (by decide)
      (by decide) (by decide)

/-- C9: the connectivity check precedes the size check: a disconnected
connector always yields false with exactly the not-connected error, even on
oversized payloads; the oversized-payload error is produced exactly when the
connector is connected with a valid socket, and its presence among the
emitted events implies the connector was connected. -/
theorem sendMessage_connectivity_before_size :
    (∀ env s canId data, s.connected = false →
      sendMessage env s canId data =
        (false, [Event.errorCb "CAN socket not connected"])) ∧
    (∀ env s canId data, s.connected = true → 0 ≤ s.socket →
      CAN_MAX_DLEN < data.length →
      sendMessage env s canId data =
        (false, [Event.errorCb (oversizeMsg data.length)])) ∧
    (∀ env s canId data n,
      Event.errorCb (oversizeMsg n) ∈ (sendMessage env s canId data).2 →
      s.connected = true ∧ 0 ≤ s.socket) := by
  refine ⟨?_, ?_, ?_⟩
  · intro env s canId data h
    simp [sendMessage, h]
  · intro env s canId data hc hs hbig
    have hns : ¬ (s.connected = false ∨ s.socket < 0) := by
      rintro (h | h)
      · simp [hc] at h
      · omega
    simp [sendMessage, hns, hbig]
  · intro env s canId data n hmem
    by_cases hns : s.connected = false ∨ s.socket < 0
    · exfalso
      simp [sendMessage, hns] at hmem
      exact oversizeMsg_ne_notConnected n hmem
    · constructor
      · cases hb : s.connected
        · exact absurd (Or.inl hb) hns
        · rfl
      · by_contra hneg
        exact hns (Or.inr (by omega))

/-- C9 witness: on a concrete disconnected connector an oversized send still
reports the not-connected error, and on a concrete connected connector the
oversized message appears. -/
theorem sendMessage_connectivity_before_size_witness :
    sendMessage env0 (initState "vcan0") 291 [1, 2, 3, 4, 5, 6, 7, 8, 9] =
      (false, [Event.errorCb "CAN socket not connected"]) ∧
    sendMessage env0 conn0 291 [1, 2, 3, 4, 5, 6, 7, 8, 9] =
      (false, [Event.errorCb (oversizeMsg 9)]) ∧
    (conn0.connected = true ∧ 0 ≤ conn0.socket) := by
  refine ⟨?_, ?_, ?_⟩
  · exact sendMessage_connectivity_before_size.1 env0 (initState "vcan0") 291 _ rfl
  · have h := sendMessage_connectivity_before_size.2.1 env0 conn0 291
      [1, 2, 3, 4, 5, 6, 7, 8, 9] (by decide) (by decide) (by decide)
    simpa using h
  · exact sendMessage_connectivity_before_size.2.2 env0 conn0 291
      [1, 2, 3, 4, 5, 6, 7, 8, 9] 9 (by decide)

/-- C2 counterexample: on a concrete connected connector a hard read failure
makes the reader loop break and fire the error callback, but the connector
state still reports connected: isConnected returns true, not false as the
claim states. -/
theorem readError_leaves_connected_counterexample :
    (readThreadFunction conn0 "Input output error" [SelectOutcome.readError]).2.2
      = true ∧
    (readThreadFunction conn0 "Input output error" [SelectOutcome.readError]).2.1
      = [Event.errorCb "Error reading CAN socket: Input output error"] ∧
    isConnected
      (readThreadFunction conn0 "Input output error" [SelectOutcome.readError]).1
      = true := by
  decide

/-- C2 amended: on a hard failure (read error or select error) the reader
loop fires the matching error callback and terminates by break, but the
connector state is left unchanged, so a previously connected connector still
reports connected; recovery requires an explicit disconnect and reconnect. -/
theorem readError_terminates_loop_state_unchanged (s : ConnState)
    (strerror : String) (rest : List SelectOutcome)
    (hc : s.connected = true) (hs : s.shouldStop = false) :
    readThreadFunction s strerror (SelectOutcome.readError :: rest) =
      (s, [Event.errorCb ("Error reading CAN socket: " ++ strerror)], true) ∧
    readThreadFunction s strerror (SelectOutcome.selectError :: rest) =
      (s, [Event.errorCb ("Select error: " ++ strerror)], true) ∧
    isConnected s = true := by
  refine ⟨?_, ?_, hc⟩ <;> simp [readThreadFunction, hs]

/-- C2 amended witness: the amended statement evaluated on a concrete
connected connector. -/
theorem readError_terminates_loop_state_unchanged_witness :
    readThreadFunction conn0 "Bad file descriptor" [SelectOutcome.readError] =
      (conn0, [Event.errorCb "Error reading CAN socket: Bad file descriptor"],
       true) ∧
    isConnected conn0 = true := by
  have h := readError_terminates_loop_state_unchanged conn0
    "Bad file descriptor" [] (by decide) (by decide)
  exact ⟨h.1, h.2.2⟩

/-- C3: connect on an already connected connector returns true at once, with
the state unchanged and no setup step or callback executed; when any setup
step fails on a disconnected connector, connect returns false, the error
callback fires, the socket is closed and reset to -1, and the connector is
left disconnected. -/
theorem connect_idempotent_no_partial_state :
    (∀ env s, s.connected = true → connect env s = (true, s, [])) ∧
    (∀ env s, s.connected = false →
      (env.socketFd = none ∨ env.ioctlOk = false ∨ env.bindOk = false) →
      (connect env s).1 = false ∧
      (connect env s).2.1.connected = false ∧
      (connect env s).2.1.socket = -1 ∧
      (connect env s).2.2 =
        [Event.errorCb ("Failed to setup CAN socket: " ++ env.strerror)]) := by
  constructor
  · intro env s h
    simp [connect, h]
  · intro env s h hf
    rcases hf with h1 | h1 | h1
    · simp [connect, h, setupSocket, h1]
    · cases hfd : env.socketFd <;>
        simp [connect, h, setupSocket, hfd, h1]
    · cases hfd : env.socketFd
      · simp [connect, h, setupSocket, hfd]
      · cases hio : env.ioctlOk <;>
          simp [connect, h, setupSocket, hfd, hio, h1]

/-- C3 witness: a connected connector is untouched by connect, and a failing
socket() leaves a concrete fresh connector disconnected with socket -1. -/
theorem connect_idempotent_no_partial_state_witness :
    connect env0 conn0 = (true, conn0, []) ∧
    (connect envFail (initState "vcan0")).1 = false ∧
    (connect envFail (initState "vcan0")).2.1.connected = false ∧
    (connect envFail (initState "vcan0")).2.1.socket = -1 := by
  have h2 := connect_idempotent_no_partial_state.2 envFail (initState "vcan0")
    rfl (Or.inl rfl)
  exact ⟨connect_idempotent_no_partial_state.1 env0 conn0 rfl,
    h2.1, h2.2.1, h2.2.2.1⟩

/-- C7 counterexample: with interface vcan0 and a failing socket() whose
errno renders as No such device, the error callback message is exactly
Failed to setup CAN socket: No such device, and the interface name vcan0
does not occur in it, contrary to the claim. -/
theorem connect_error_message_lacks_interface_name :
    (connect envFail (initState "vcan0")).2.2 =
      [Event.errorCb "Failed to setup CAN socket: No such device"] ∧
    isSubstring "vcan0" "Failed to setup CAN socket: No such device" = false := by
  decide

/-- C7 amended: whenever a setup step of connect fails, the error callback
message is Failed to setup CAN socket: followed by the underlying system
error; the message contains the underlying error but not the configured
interface name. -/
theorem connect_error_message_contains_system_error (env : Env) (s : ConnState)
    (h : s.connected = false)
    (hf : env.socketFd = none ∨ env.ioctlOk = false ∨ env.bindOk = false) :
    (connect env s).2.2 =
      [Event.errorCb ("Failed to setup CAN socket: " ++ env.strerror)] ∧
    isSubstring env.strerror
      ("Failed to setup CAN socket: " ++ env.strerror) = true := by
  constructor
  · rcases hf with h1 | h1 | h1
    · simp [connect, h, setupSocket, h1]
    · cases hfd : env.socketFd <;>
        simp [connect, h, setupSocket, hfd, h1]
    · cases hfd : env.socketFd
      · simp [connect, h, setupSocket, hfd]
      · cases hio : env.ioctlOk <;>
          simp [connect, h, setupSocket, hfd, hio, h1]
  · exact containsSeq_append_self env.strerror.data
      ("Failed to setup CAN socket: ").data

/-- C7 amended witness: evaluated with a concrete bind failure. -/
theorem connect_error_message_contains_system_error_witness :
    (connect { socketFd := some 4, ioctlOk := true, bindOk := false,
               writeOk := true, strerror := "Operation not permitted" }
       (initState "can1")).2.2 =
      [Event.errorCb "Failed to setup CAN socket: Operation not permitted"] ∧
    isSubstring "Operation not permitted"
      "Failed to setup CAN socket: Operation not permitted" = true := by
  have h := connect_error_message_contains_system_error
    { socketFd := some 4, ioctlOk := true, bindOk := false, writeOk := true,
      strerror := "Operation not permitted" }
    (initState "can1") rfl (Or.inr (Or.inr rfl))
  exact ⟨h.1, h.2⟩

/-- C4 counterexample: frames with id 0x300 and 0x400 get no routing action
at all, there being no body or safety entry in the table; they are still
republished as the CANMessageReceived signal. -/
theorem routing_table_missing_body_safety :
    onCANMessageReceived true 1000 768 [1, 2] =
      [BusEvent.canMessageReceivedSignal 768 [1, 2] 1000] ∧
    onCANMessageReceived true 1000 1024 [1, 2] =
      [BusEvent.canMessageReceivedSignal 1024 [1, 2] 1000] ∧
    forwardCANMessageToECU 768 = none ∧
    forwardCANMessageToECU 1024 = none := by
  decide

/-- C4 amended: the routing table maps 0x100 to 0x1FF to engine and 0x200 to
0x2FF to transmission only; every other id, including 0x300 to 0x4FF, gets
no forwarding action; and every frame, whatever its id, is republished as
the CANMessageReceived signal with its payload unchanged, so the table is
not a filter. -/
theorem routing_table_informational_only :
    (∀ canId, 0x100 ≤ canId → canId ≤ 0x1FF →
      forwardCANMessageToECU canId = some RouteCategory.engine) ∧
    (∀ canId, 0x200 ≤ canId → canId ≤ 0x2FF →
      forwardCANMessageToECU canId = some RouteCategory.transmission) ∧
    (∀ canId, ¬ (0x100 ≤ canId ∧ canId ≤ 0x1FF) →
      ¬ (0x200 ≤ canId ∧ canId ≤ 0x2FF) →
      forwardCANMessageToECU canId = none) ∧
    (∀ ts canId data,
      BusEvent.canMessageReceivedSignal canId data ts ∈
        onCANMessageReceived true ts canId data) := by
  refine ⟨?_, ?_, ?_, ?_⟩
  · intro canId h1 h2
    simp [forwardCANMessageToECU, h1, h2]
  · intro canId h1 h2
    have hne : ¬ (0x100 ≤ canId ∧ canId ≤ 0x1FF) := by omega
    simp [forwardCANMessageToECU, hne, h1, h2]
  · intro canId h1 h2
    simp [forwardCANMessageToECU, h1, h2]
  · intro ts canId data
    simp [onCANMessageReceived]

/-- C4 amended witness: the table and the republish behaviour evaluated at
concrete ids in each range and outside all ranges. -/
theorem routing_table_informational_only_witness :
    forwardCANMessageToECU 291 = some RouteCategory.engine ∧
    forwardCANMessageToECU 515 = some RouteCategory.transmission ∧
    forwardCANMessageToECU 800 = none ∧
    BusEvent.canMessageReceivedSignal 800 [7] 42 ∈
      onCANMessageReceived true 42 800 [7] := by
  refine ⟨?_, ?_, ?_, ?_⟩
  · exact routing_table_informational_only.1 291 (by decide) (by decide)
  · exact routing_table_informational_only.2.1 515 (by decide) (by decide)
  · exact routing_table_informational_only.2.2.1 800 (by decide) (by decide)
  · exact routing_table_informational_only.2.2.2 42 800 [7]

/-- C5: stop before any connect leaves the state disconnected; stop is
idempotent, a second stop changing nothing and the state after stop being
disconnected with the D-Bus connection gone; when a D-Bus connection
exists every teardown step is attempted whatever the earlier steps did, the
name release and the object reset happening even when leaveEventLoop or
releaseName throws; and once the stop flag is set the reader loop exits at
its next check without emitting anything, so the join cannot block. -/
theorem stop_idempotent_teardown :
    (∀ env name,
      (stop env { conn := initState name, dbusConnection := false,
                  dbusObject := false, dbusThread := false }).1.conn.connected
        = false) ∧
    (∀ env env2 s,
      (stop env2 (stop env s).1).1 = (stop env s).1 ∧
      (stop env s).1.conn.connected = false ∧
      (stop env s).1.dbusConnection = false) ∧
    (∀ env s, s.dbusConnection = true →
      StopEvent.releaseNameAttempt ∈ (stop env s).2 ∧
      StopEvent.resetDbusObjects ∈ (stop env s).2) ∧
    (∀ s strerror inputs, s.shouldStop = true →
      readThreadFunction s strerror inputs = (s, [], false)) := by
  refine ⟨?_, ?_, ?_, ?_⟩
  · intro env name
    exact stop_conn_connected env _
  · intro env env2 s
    refine ⟨?_, stop_conn_connected env s, stop_dbusConnection_false env s⟩
    have h1 := stop_conn_connected env s
    have h2 := stop_dbusConnection_false env s
    rcases hstop : (stop env s).1 with ⟨conn1, d1, o1, t1⟩
    rw [hstop] at h1 h2
    simp only at h1 h2
    subst h2
    simp [stop, disconnect_of_not_connected conn1 h1]
  · intro env s hd
    constructor <;> simp [stop, hd]
  · intro s strerror inputs h
    cases inputs with
    | nil => rfl
    | cons o rest => simp [readThreadFunction, h]

/-- C5 witness: stop evaluated twice on a concrete started listener with
both teardown steps throwing, and on a concrete never-connected listener. -/
theorem stop_idempotent_teardown_witness :
    (stop { leaveLoopFails := true, releaseNameFails := true }
      { conn := initState "vcan0", dbusConnection := false,
        dbusObject := false, dbusThread := false }).1.conn.connected = false ∧
    (stop { leaveLoopFails := false, releaseNameFails := false }
      (stop { leaveLoopFails := true, releaseNameFails := true }
        { conn := conn0, dbusConnection := true, dbusObject := true,
          dbusThread := true }).1).1 =
      (stop { leaveLoopFails := true, releaseNameFails := true }
        { conn := conn0, dbusConnection := true, dbusObject := true,
          dbusThread := true }).1 ∧
    StopEvent.releaseNameAttempt ∈
      (stop { leaveLoopFails := true, releaseNameFails := true }
        { conn := conn0, dbusConnection := true, dbusObject := true,
          dbusThread := true }).2 ∧
    readThreadFunction { conn0 with shouldStop := true } "Success"
      [SelectOutcome.timeout] = ({ conn0 with shouldStop := true }, [], false) := by
  refine ⟨?_, ?_, ?_, ?_⟩
  · exact stop_idempotent_teardown.1
      { leaveLoopFails := true, releaseNameFails := true } "vcan0"
  · exact (stop_idempotent_teardown.2.1
      { leaveLoopFails := true, releaseNameFails := true }
      { leaveLoopFails := false, releaseNameFails := false }
      { conn := conn0, dbusConnection := true, dbusObject := true,
        dbusThread := true }).1
  · exact (stop_idempotent_teardown.2.2.1
      { leaveLoopFails := true, releaseNameFails := true }
      { conn := conn0, dbusConnection := true, dbusObject := true,
        dbusThread := true } rfl).1
  · exact stop_idempotent_teardown.2.2.2 { conn0 with shouldStop := true }
      "Success" [SelectOutcome.timeout] rfl

/-- C6: the bus operation SendCANMessage is exactly a delegation to
sendMessage, its boolean result returned unchanged for every input, and
GetStatus returns Connected precisely when isConnected is true at call time
and Disconnected when it is false, computed from the connector state with no
caching. -/
theorem dbus_operations_reflect_transport :
    (∀ env s canId data,
      dbusSendCANMessage env s canId data = sendMessage env s canId data) ∧
    (∀ s, (isConnected s = true → dbusGetStatus s = "Connected") ∧
          (isConnected s = false → dbusGetStatus s = "Disconnected")) := by
  constructor
  · intro env s canId data
    rfl
  · intro s
    constructor <;> intro h <;> simp [dbusGetStatus, h]

/-- C6 witness: the delegation and both status strings evaluated on concrete
connected and disconnected connectors. -/
theorem dbus_operations_reflect_transport_witness :
    dbusSendCANMessage env0 conn0 291 [1, 2] = sendMessage env0 conn0 291 [1, 2] ∧
    dbusGetStatus conn0 = "Connected" ∧
    dbusGetStatus (initState "vcan0") = "Disconnected" := by
  refine ⟨dbus_operations_reflect_transport.1 env0 conn0 291 [1, 2], ?_, ?_⟩
  · exact (dbus_operations_reflect_transport.2 conn0).1 rfl
  · exact (dbus_operations_reflect_transport.2 (initState "vcan0")).2 rfl

/-- C10: setInterfaceName with the currently configured name is a no-op: the
state, the interface name and the socket are unchanged and no callback
fires. -/
theorem setInterfaceName_same_name_noop (env : Env) (s : ConnState)
    (name : String) (h : s.interfaceName = name) :
    setInterfaceName env s name = (s, []) := by
  simp [setInterfaceName, h]

/-- C10 witness: renaming a concrete connected connector to its own name
changes nothing. -/
theorem setInterfaceName_same_name_noop_witness :
    setInterfaceName env0 conn0 "vcan0" = (conn0, []) :=
  setInterfaceName_same_name_noop env0 conn0 "vcan0" rfl

/-- C8: under the sequential schedule a single CANListener is constructed
and the shared pointer is that instance, but under the interleaved schedule
in which both threads pass the null check before either stores, the
check-then-act body of instance() constructs two CANListener objects:
duplicate initialization, contradicting the claim that first access is safe
under concurrent callers. -/
theorem instance_duplicate_initialization_race :
    (runInstance [true, true, false, false] g0 t0 t0).1 =
      { inst := some 1, allocs := 1 } ∧
    (runInstance [true, false, true, false] g0 t0 t0).1.allocs = 2 := by
  decide

end CanBus
